import Mathlib

/-!
# Verification of the ClarityAI feed-polling / notification pipeline

A shallow embedding of the server code (`server/scheduler.ts`,
`server/routes.ts`, `server/notifications.ts`) of the ClarityAI
repository, together with proofs about the embedded definitions.

External effects (network fetches, the RSS parser, the transcript
library, the Telegram HTTP call, the LLM call, wall-clock time) are
modelled as oracle functions carried in an `Env` record; everything the
repository itself computes is translated into executable Lean
definitions.  JavaScript string operations are re-implemented by
structural recursion over `List Char` so that all definitions evaluate
by `decide` / `rfl`.
-/

namespace ClarityAI

/-! ## JavaScript string primitives -/

/-- `prefixAt pat l` decides whether `pat` is a prefix of `l`
(models the leading-position test of `String.prototype.startsWith`). -/
def prefixAt : List Char → List Char → Bool
  | [], _ => true
  | _ :: _, [] => false
  | a :: p, b :: l => a == b && prefixAt p l

/-- `containsSub needle hay` decides whether `needle` occurs contiguously
inside `hay` (models `String.prototype.includes`). -/
def containsSub (needle : List Char) : List Char → Bool
  | [] => prefixAt needle []
  | c :: t => prefixAt needle (c :: t) || containsSub needle t

/-- `s.includes(sub)` on JavaScript strings. -/
def jsIncludes (s sub : String) : Bool := containsSub sub.data s.data

/-- `s.startsWith(p)` on JavaScript strings. -/
def jsStartsWith (s p : String) : Bool := prefixAt p.data s.data

/-- `s.toLowerCase()` (adequate for the ASCII data the code compares). -/
def lowerStr (s : String) : String := ⟨s.data.map Char.toLower⟩

/-- `s.trim()` (ASCII whitespace). -/
def trimList (l : List Char) : List Char :=
  ((l.dropWhile Char.isWhitespace).reverse.dropWhile Char.isWhitespace).reverse

/-- `s.trim()` on JavaScript strings. -/
def trimS (s : String) : String := ⟨trimList s.data⟩

/-- Splitting on a single separator character, as `s.split(c)` does. -/
def splitCharAux (sep : Char) : List Char → List Char → List (List Char)
  | [], acc => [acc.reverse]
  | c :: t, acc =>
    if c == sep then acc.reverse :: splitCharAux sep t [] else splitCharAux sep t (c :: acc)

/-- `s.split(c)` on JavaScript strings. -/
def jsSplit (sep : Char) (s : String) : List String :=
  (splitCharAux sep s.data []).map fun l => ⟨l⟩

/-- `s.split(':').pop()`: the suffix of `s` after its last `:`
(the whole string when it has no `:`).  Used by the backfill path to
normalize Atom ids of the form `yt:video:<id>`. -/
def splitColonLast (s : String) : String := ⟨(splitCharAux ':' s.data []).getLastD []⟩

/-- Remainder of `l` after the first occurrence of `sep`, if any. -/
def splitAfterAux (sep : List Char) : List Char → Option (List Char)
  | [] => none
  | c :: t =>
    if prefixAt sep (c :: t) then some (List.drop sep.length (c :: t)) else splitAfterAux sep t

/-- Longest piece of `l` before the next occurrence of `sep`. -/
def takeUntilAux (sep : List Char) : List Char → List Char
  | [] => []
  | c :: t => if prefixAt sep (c :: t) then [] else c :: takeUntilAux sep t

/-- `s.split(sep)[1]` for a multi-character separator: the segment
between the first and second occurrences of `sep` (empty when `sep`
does not occur, a case the call sites guard against). -/
def jsSplitGet1 (s sep : String) : String :=
  match splitAfterAux sep.data s.data with
  | some rest => ⟨takeUntilAux sep.data rest⟩
  | none => ""

/-- Replace every occurrence of a single character by a string
(models `s.replace(/c/g, rep)`). -/
def replaceChar (c : Char) (rep : List Char) : List Char → List Char
  | [] => []
  | a :: t => if a == c then rep ++ replaceChar c rep t else a :: replaceChar c rep t

/-- Replace every occurrence of the 5-character HTML entity `&amp;` by
`&` (models `s.replace(/&amp;/g, '&')` of the Reddit thumbnail code). -/
def replaceAmp : List Char → List Char
  | '&' :: 'a' :: 'm' :: 'p' :: ';' :: rest => '&' :: replaceAmp rest
  | c :: rest => c :: replaceAmp rest
  | [] => []

/-- `s.replace(/&amp;/g, '&')` on JavaScript strings. -/
def unescapeAmp (s : String) : String := ⟨replaceAmp s.data⟩

/-- Tag-stripping automaton equivalent to `s.replace(/<[^>]*>?/gm, '')`:
outside a tag, `<` enters tag mode; inside, everything up to and
including the next `>` (or the end of the string) is dropped. -/
def stripHtmlAux : Bool → List Char → List Char
  | _, [] => []
  | false, '<' :: t => stripHtmlAux true t
  | false, c :: t => c :: stripHtmlAux false t
  | true, '>' :: t => stripHtmlAux false t
  | true, _ :: t => stripHtmlAux true t

/-- `rawContent.replace(/<[^>]*>?/gm, '')` on JavaScript strings. -/
def stripHtml (s : String) : String := ⟨stripHtmlAux false s.data⟩

/-! ## JavaScript truthiness on optional strings -/

/-- Truthiness of a possibly-absent string: `undefined`, `null` and the
empty string are falsy. -/
def truthy : Option String → Bool
  | none => false
  | some s => !(s == "")

/-- Truthiness of a definitely-present string. -/
def truthyS (s : String) : Bool := !(s == "")

/-- `a || b` on optional strings. -/
def jsOr (a b : Option String) : Option String := if truthy a then a else b

/-- `a || b || ''` collapsing to a plain string. -/
def jsOr2S (a b : Option String) : String :=
  if truthy a then a.getD "" else if truthy b then b.getD "" else ""

/-! ## Data model

Mirrors the Supabase schema (`channels`, `videos`, `user_settings`)
from the repository's SQL setup file. -/

/-- A row of the `channels` table. -/
structure Channel where
  id : String
  userId : String
  name : String
  rssUrl : String
  lastChecked : Option String
deriving DecidableEq

/-- A row of the `videos` table.  `summary` is nullable (backfill omits
it, the poll cycle inserts `""`); `video_type` and `thumbnail_url` have
defaults. -/
structure VideoRow where
  channelId : String
  videoId : String
  title : Option String
  link : Option String
  publishedAt : Option String
  summary : Option String
  transcript : String
  videoType : String
  notified : Bool
  thumbnailUrl : String
deriving DecidableEq

/-- A row of the `user_settings` table. -/
structure SettingsRow where
  userId : String
  telegramBotToken : Option String
  telegramChatId : Option String
  geminiApiKey : Option String
deriving DecidableEq

/-- The common item shape every source adapter normalizes into
(`rss-parser` items and the hand-built Reddit/YouTube objects). -/
structure FeedItem where
  id : String
  title : Option String
  link : Option String
  isoDate : Option String
  contentSnippet : Option String
  content : Option String
deriving DecidableEq

/-- One child of a Reddit `.json` listing (the fields the code reads). -/
structure RedditChild where
  id : String
  title : Option String
  permalink : String
  createdUtc : Int
  selftext : Option String
  thumbnail : Option String
  previewUrl : Option String
deriving DecidableEq

/-- One `videoRenderer`-shaped node extracted from a scraped YouTube
page (the fields the code reads). -/
structure YtVideo where
  videoId : Option String
  titleRunText : Option String
  titleSimpleText : Option String
  descriptionSnippet : Option String
deriving DecidableEq

/-- Outcome of the Telegram `sendMessage` HTTP call. -/
structure HttpResp where
  ok : Bool
  body : String
deriving DecidableEq

/-- The `{success, error?}` record returned by `sendNotification`. -/
structure NotifResult where
  success : Bool
  error : Option String
deriving DecidableEq

/-- A record of one `sendNotification` call (arguments and result),
kept as the observable notification trace. -/
structure NotifCall where
  botToken : String
  chatId : String
  title : String
  link : String
  summary : String
  result : NotifResult
deriving DecidableEq

/-- The persistent state the server mutates, plus the notification
trace. -/
structure AppState where
  channels : List Channel
  videos : List VideoRow
  settings : List SettingsRow
  notifs : List NotifCall
deriving DecidableEq

/-- Oracles for everything outside the repository: wall-clock time,
environment variables, the network, the RSS parser, the transcript
library, date formatting, the reply-link regex, and the LLM. -/
structure Env where
  now : String
  telegramBotTokenEnv : Option String
  http : String → String → String → Except String HttpResp
  getTranscript : String → String
  redditFetch : String → Except String (List RedditChild)
  ytScrape : String → Except String (List YtVideo)
  rssParse : String → Except String (List FeedItem)
  isoOfEpoch : Int → String
  linkMatch : String → Option String
  llm : String → String → Except String String
  insertSettingsError : Option String

/-! ## Notification dispatcher (`server/notifications.ts`, second
definition of `sendNotification`, lines 44-85) -/

/-- The `escapeHTML` helper of `sendNotification`. -/
def escapeHTML (s : String) : String :=
  ⟨replaceChar '>' "&gt;".data
    (replaceChar '<' "&lt;".data
      (replaceChar '&' "&amp;".data s.data))⟩

/-- The message template of `sendNotification` (with / without a
summary block). -/
def buildMessage (title link summary : String) : String :=
  if truthyS summary then
    "📺 <b>New Video Alert!</b>\n\n📌 <b>Title:</b> " ++ escapeHTML title ++
      "\n\n📝 <b>Summary:</b>\n" ++ escapeHTML summary ++ "\n\n🔗 <b>Link:</b> " ++ link
  else
    "📺 <b>New Video Alert!</b>\n\n📌 <b>Title:</b> " ++ escapeHTML title ++
      "\n\n🔗 <b>Link:</b> " ++ link

/-- `sendNotification(botToken, chatId, title, link, summary)`: builds
the message, and if both credentials are truthy performs one HTTP call
(the `http` oracle); a thrown fetch is the oracle's `.error` case.  It
never throws to its caller (it is a total function). -/
def sendNotification (http : String → String → String → Except String HttpResp)
    (botToken chatId title link summary : String) : NotifResult :=
  if truthyS botToken && truthyS chatId then
    match http botToken chatId (buildMessage title link summary) with
    | .ok res => if res.ok then ⟨true, none⟩ else ⟨false, some res.body⟩
    | .error msg => ⟨false, some msg⟩
  else ⟨false, some "No Telegram settings configured"⟩

/-- A `sendNotification` call together with its recorded arguments. -/
def mkNotifCall (http : String → String → String → Except String HttpResp)
    (botToken chatId title link summary : String) : NotifCall :=
  ⟨botToken, chatId, title, link, summary, sendNotification http botToken chatId title link summary⟩

/-! ## Content-kind classification (`server/scheduler.ts` lines 112-115) -/

/-- `videoType` starts as `'longform'` and becomes `'short'` when
`(item.title || '').includes('#shorts')` or
`(item.contentSnippet || '').toLowerCase().includes('short')`. -/
def classifyVideoType (title snippet : String) : String :=
  if jsIncludes title "#shorts" || jsIncludes (lowerStr snippet) "short" then "short"
  else "longform"

/-! ## Source adapters (`server/scheduler.ts` lines 37-100,
`server/routes.ts` lines 470-582) -/

/-- Rewriting a legacy `feeds/videos.xml?channel_id=` RSS URL into the
canonical channel URL the scraper uses (`scheduler.ts` lines 56-60 and
`routes.ts` lines 501-504). -/
def ytChannelUrl (rssUrl : String) : String :=
  if jsIncludes rssUrl "/feeds/videos.xml?channel_id=" then
    "https://www.youtube.com/channel/" ++ jsSplitGet1 rssUrl "channel_id="
  else rssUrl

/-- The `seenIds` filter over the walked `videoRenderer` nodes: drop
nodes with a falsy `videoId`, keep the first occurrence of each id. -/
def dedupYtAux (seen : List String) : List YtVideo → List YtVideo
  | [] => []
  | v :: t =>
    match v.videoId with
    | some vid =>
      if !(vid == "") && !(seen.contains vid) then v :: dedupYtAux (vid :: seen) t
      else dedupYtAux seen t
    | none => dedupYtAux seen t

/-- Deduplicate scraped YouTube nodes by video id, first-seen order. -/
def dedupYt (vs : List YtVideo) : List YtVideo := dedupYtAux [] vs

/-- `v.title?.runs?.[0]?.text || v.title?.simpleText || 'Unknown Video'`. -/
def ytTitle (v : YtVideo) : String :=
  if truthy v.titleRunText then v.titleRunText.getD ""
  else if truthy v.titleSimpleText then v.titleSimpleText.getD ""
  else "Unknown Video"

/-- The steady-state YouTube scrape mapper (`scheduler.ts` lines 86-92):
note `isoDate` is `new Date().toISOString()` — the time of the poll,
not the video's publication time. -/
def ytScrapeToFeedItem (now : String) (v : YtVideo) : FeedItem :=
  { id := v.videoId.getD ""
    title := some (ytTitle v)
    link := some ("https://www.youtube.com/watch?v=" ++ v.videoId.getD "")
    isoDate := some now
    contentSnippet := some (v.descriptionSnippet.getD "")
    content := none }

/-- The steady-state Reddit listing mapper (`scheduler.ts` lines 43-53). -/
def redditToFeedItem (env : Env) (c : RedditChild) : FeedItem :=
  { id := c.id
    title := c.title
    link := some ("https://www.reddit.com" ++ c.permalink)
    isoDate := some (env.isoOfEpoch c.createdUtc)
    contentSnippet := c.selftext
    content := c.selftext }

/-- Fetch and normalize one channel's feed for the poll cycle
(`scheduler.ts` lines 35-100).  A throw in the Reddit fetch or the RSS
parse propagates (`.error`, caught by the per-channel handler); the
YouTube scrape has its own inner `try` that degrades to an empty list. -/
def fetchFeedItems (env : Env) (ch : Channel) : Except String (List FeedItem) :=
  if truthyS ch.rssUrl && jsIncludes ch.rssUrl "reddit.com" then
    match env.redditFetch ch.rssUrl with
    | .error e => .error e
    | .ok children => .ok (children.map (redditToFeedItem env))
  else if truthyS ch.rssUrl && jsIncludes ch.rssUrl "youtube.com" then
    match env.ytScrape (ytChannelUrl ch.rssUrl) with
    | .error _ => .ok []
    | .ok vs => .ok (((dedupYt vs).take 15).map (ytScrapeToFeedItem env.now))
  else env.rssParse ch.rssUrl

/-! ## Dedup & ingestion (`server/scheduler.ts` lines 104-153) -/

/-- The existence probe
`.from('videos').select('id').eq('channel_id', ...).eq('video_id', ...)`. -/
def keyMatch (chId vid : String) (r : VideoRow) : Bool :=
  r.channelId == chId && r.videoId == vid

/-- Whether a row with the given dedup key is already persisted. -/
def existsVideo (videos : List VideoRow) (chId vid : String) : Bool :=
  videos.any (keyMatch chId vid)

/-- Transcript caching before insert (`scheduler.ts` lines 121-128):
Reddit links get the HTML-stripped post body, everything else the
transcript oracle. -/
def cycleTranscript (env : Env) (item : FeedItem) : String :=
  if truthy item.link && jsIncludes (item.link.getD "") "reddit.com" then
    trimS (stripHtml (jsOr2S item.content item.contentSnippet))
  else env.getTranscript (item.link.getD "")

/-- `settingsByUserId[uid]`: the reduce keeps the last row per user id. -/
def lookupSettings (rows : List SettingsRow) (uid : String) : Option SettingsRow :=
  rows.foldl (fun acc r => if r.userId == uid then some r else acc) none

/-- `process.env.TELEGRAM_BOT_TOKEN || settingsByUserId[channel.user_id]?.telegram_bot_token`. -/
def cycleBotToken (env : Env) (settings : List SettingsRow) (ch : Channel) : Option String :=
  jsOr env.telegramBotTokenEnv ((lookupSettings settings ch.userId).bind SettingsRow.telegramBotToken)

/-- `settingsByUserId[channel.user_id]?.telegram_chat_id`. -/
def cycleChatId (settings : List SettingsRow) (ch : Channel) : Option String :=
  (lookupSettings settings ch.userId).bind SettingsRow.telegramChatId

/-- `if (botToken && chatId)`: whether the cycle attempts a dispatch
for new items of this channel.  The result of the dispatch is NOT part
of this condition. -/
def cycleAttempt (env : Env) (settings : List SettingsRow) (ch : Channel) : Bool :=
  truthy (cycleBotToken env settings ch) && truthy (cycleChatId settings ch)

/-- The `contextType` argument of the cycle's notification. -/
def cycleContextType (ch : Channel) : String :=
  if truthyS ch.rssUrl && jsIncludes ch.rssUrl "reddit.com" then "Reddit Post"
  else "YouTube Video"

/-- The row the poll cycle inserts for a new item (`scheduler.ts`
lines 139-149): `notified` is exactly the attempt condition — it is set
to `true` right after `await sendNotification(...)` without inspecting
the returned result. -/
def cycleRow (env : Env) (settings : List SettingsRow) (ch : Channel) (item : FeedItem) :
    VideoRow :=
  { channelId := ch.id
    videoId := item.id
    title := item.title
    link := item.link
    publishedAt := item.isoDate
    summary := some ""
    transcript := cycleTranscript env item
    videoType := classifyVideoType (item.title.getD "") (item.contentSnippet.getD "")
    notified := cycleAttempt env settings ch
    thumbnailUrl := "" }

/-- Per-item dedup and insert (`scheduler.ts` lines 104-152): skip when
the key exists, otherwise classify, cache a transcript, maybe dispatch
a notification (result ignored), and insert. -/
def processItem (env : Env) (settings : List SettingsRow) (ch : Channel)
    (st : AppState) (item : FeedItem) : AppState :=
  if existsVideo st.videos ch.id item.id then st
  else
    let row := cycleRow env settings ch item
    if cycleAttempt env settings ch then
      let call := mkNotifCall env.http ((cycleBotToken env settings ch).getD "")
        ((cycleChatId settings ch).getD "") (item.title.getD "") (item.link.getD "")
        (cycleContextType ch)
      { st with videos := st.videos ++ [row], notifs := st.notifs ++ [call] }
    else { st with videos := st.videos ++ [row] }

/-- One channel of the poll cycle (`scheduler.ts` lines 33-157, inside
the `try`): fetch, stamp `last_checked`, then ingest each item.  A
fetch/parse throw yields `.error` without touching the state. -/
def processChannel (env : Env) (settings : List SettingsRow) (st : AppState)
    (ch : Channel) : Except String AppState :=
  match fetchFeedItems env ch with
  | .error e => .error e
  | .ok feedItems =>
    let st1 := { st with
      channels := st.channels.map fun c =>
        if c.id == ch.id then { c with lastChecked := some env.now } else c }
    .ok (feedItems.foldl (fun s it => processItem env settings ch s it) st1)

/-- The per-channel loop with its `catch`: an error for one channel is
logged and skipped, the fold continues with the remaining channels. -/
def checkFeedsOver (env : Env) (settings : List SettingsRow) (st : AppState)
    (chs : List Channel) : AppState :=
  chs.foldl (fun s ch =>
    match processChannel env settings s ch with
    | .ok s' => s'
    | .error _ => s) st

/-- `checkFeeds()`: snapshot the channel list and the settings, then
run the per-channel loop. -/
def checkFeeds (env : Env) (st : AppState) : AppState :=
  checkFeedsOver env st.settings st st.channels

/-! ## Backfill (`server/routes.ts` lines 466-593) -/

/-- The Reddit thumbnail selection of `backfillVideos` (lines 477-487):
keep `item.thumbnail` when truthy and `http`-prefixed, otherwise fall
back to the first preview image URL with `&amp;` unescaped, else `''`. -/
def redditThumb (thumbnail previewUrl : Option String) : String :=
  if !truthy thumbnail || !jsStartsWith (thumbnail.getD "") "http" then
    if truthy previewUrl then unescapeAmp (previewUrl.getD "") else ""
  else thumbnail.getD ""

/-- A backfilled Reddit row (lines 488-497): `notified: true`. -/
def redditBackfillRow (env : Env) (chId : String) (c : RedditChild) : VideoRow :=
  { channelId := chId
    videoId := c.id
    title := c.title
    link := some ("https://www.reddit.com" ++ c.permalink)
    publishedAt := some (env.isoOfEpoch c.createdUtc)
    summary := none
    transcript := jsOr2S c.selftext c.title
    videoType := "longform"
    notified := true
    thumbnailUrl := redditThumb c.thumbnail c.previewUrl }

/-- A backfilled YouTube row (lines 531-549): `published_at` is
`new Date().toISOString()` — the time of the backfill — and
`notified: true`. -/
def ytBackfillRow (env : Env) (chId : String) (v : YtVideo) : VideoRow :=
  { channelId := chId
    videoId := v.videoId.getD ""
    title := some (ytTitle v)
    link := some ("https://www.youtube.com/watch?v=" ++ v.videoId.getD "")
    publishedAt := some env.now
    summary := none
    transcript := env.getTranscript ("https://www.youtube.com/watch?v=" ++ v.videoId.getD "")
    videoType := "longform"
    notified := true
    thumbnailUrl := "https://i.ytimg.com/vi/" ++ v.videoId.getD "" ++ "/maxresdefault.jpg" }

/-- A backfilled generic-RSS row (lines 560-578): the dedup key is
`item.id.split(':').pop()` and `notified: true`. -/
def rssBackfillRow (env : Env) (chId : String) (item : FeedItem) : VideoRow :=
  { channelId := chId
    videoId := splitColonLast item.id
    title := item.title
    link := item.link
    publishedAt := some (if truthy item.isoDate then item.isoDate.getD "" else env.now)
    summary := none
    transcript := env.getTranscript (item.link.getD "")
    videoType := "longform"
    notified := true
    thumbnailUrl := "" }

/-- The row list `backfillVideos` builds for one channel, per source
kind; `.error` is a throw caught by the function-level `catch`. -/
def backfillRows (env : Env) (chId rssUrl : String) : Except String (List VideoRow) :=
  if jsIncludes rssUrl "reddit.com" then
    match env.redditFetch rssUrl with
    | .error e => .error e
    | .ok children =>
      .ok ((children.map (redditBackfillRow env chId)).filter fun v => !(v.videoId == ""))
  else if jsIncludes rssUrl "youtube.com" then
    match env.ytScrape (ytChannelUrl rssUrl) with
    | .error _ => .ok []
    | .ok vs =>
      .ok ((((dedupYt vs).take 5).map (ytBackfillRow env chId)).filter fun v => !(v.videoId == ""))
  else
    match env.rssParse rssUrl with
    | .error e => .error e
    | .ok items =>
      .ok (((items.take 5).map (rssBackfillRow env chId)).filter fun v => !(v.videoId == ""))

/-- `upsert(videos, { onConflict: 'channel_id,video_id', ignoreDuplicates: true })`:
insert each row unless its (channel, sourceId) key is already present. -/
def upsertIgnore (videos : List VideoRow) (rows : List VideoRow) : List VideoRow :=
  rows.foldl (fun acc r => if existsVideo acc r.channelId r.videoId then acc else acc ++ [r]) videos

/-- `backfillVideos(client, channelId, rssUrl)`: build the rows and
conflict-ignore-upsert them; any throw is caught and leaves the state
unchanged. -/
def backfillVideos (env : Env) (st : AppState) (chId rssUrl : String) : AppState :=
  match backfillRows env chId rssUrl with
  | .error _ => st
  | .ok rows =>
    if rows.length > 0 then { st with videos := upsertIgnore st.videos rows } else st

/-! ## Poll/backfill operation sequences (for the idempotence claim) -/

/-- One run of either entry point of the ingestion core. -/
inductive Op where
  | cycle (env : Env)
  | backfill (env : Env) (chId rssUrl : String)

/-- Apply one operation to the persistent state. -/
def applyOp (st : AppState) : Op → AppState
  | .cycle env => checkFeeds env st
  | .backfill env chId rssUrl => backfillVideos env st chId rssUrl

/-- Run a sequence of poll-cycle / backfill operations. -/
def runOps (ops : List Op) (st : AppState) : AppState := ops.foldl applyOp st

/-- The (channel, sourceId) keys of a row list are pairwise distinct. -/
def uniqKeysB : List VideoRow → Bool
  | [] => true
  | r :: t => !existsVideo t r.channelId r.videoId && uniqKeysB t

/-! ## Summary-save notification flip (`server/routes.ts` lines 258-292) -/

/-- The condition under which the summary endpoint attempts a dispatch
and then flips `notified` (lines 279-284): settings row found, chat id
truthy, row not yet notified, bot token truthy.  The dispatch result is
NOT part of this condition. -/
def summaryFlipAttempt (env : Env) (settings : List SettingsRow) (ownerId : String)
    (v : VideoRow) : Bool :=
  match settings.find? (fun r => r.userId == ownerId) with
  | some us =>
    truthy us.telegramChatId && !v.notified &&
      truthy (jsOr env.telegramBotTokenEnv us.telegramBotToken)
  | none => false

/-- The `/api/videos/:id/summary` handler restricted to the one row it
updates: store the summary, and when the attempt condition holds send a
notification and set `notified = true` regardless of the dispatch
result. -/
def saveSummary (env : Env) (settings : List SettingsRow) (ownerId : String)
    (v : VideoRow) (summary : String) : VideoRow × List NotifCall :=
  let v1 := { v with summary := some summary }
  match settings.find? (fun r => r.userId == ownerId) with
  | some us =>
    if truthy us.telegramChatId && !v1.notified then
      let botToken := jsOr env.telegramBotTokenEnv us.telegramBotToken
      if truthy botToken then
        ({ v1 with notified := true },
          [mkNotifCall env.http (botToken.getD "") (us.telegramChatId.getD "")
            (v.title.getD "") (v.link.getD "") summary])
      else (v1, [])
    else (v1, [])
  | none => (v1, [])

/-! ## Telegram webhook handler (`server/routes.ts` lines 333-463) -/

/-- The fields of the inbound webhook body the handler reads:
`message.text`, `message.chat.id` (`chatId = none` models an absent
`chat` object), and `message.reply_to_message?.text`. -/
structure TgMessage where
  text : Option String
  chatId : Option Int
  replyText : Option String
deriving DecidableEq

/-- Exact-link resolution then case-insensitive prefix resolution
(lines 386-396: `.eq('link', videoLink)` then `.ilike('link', videoLink%)`). -/
def resolveVideo (videos : List VideoRow) (videoLink : String) : Option VideoRow :=
  match videos.find? (fun v => v.link == some videoLink) with
  | some v => some v
  | none => videos.find? fun v => jsStartsWith (lowerStr (v.link.getD "")) (lowerStr videoLink)

/-- The strictly-grounded prompt of the Q&A branch (lines 416-431). -/
def qaPrompt (isReddit : Bool) (title userText content : String) : String :=
  "\nYou are GlimpseAI, an expert technical assistant designed to analyze content. \nA user is interacting with you regarding the " ++
    (if isReddit then "Reddit post" else "video") ++ " titled: \"" ++ title ++
    "\".\n\nINSTRUCTIONS:\n1. Base your answer STRICTLY and EXCLUSIVELY on the provided content below. Do NOT use outside knowledge or hallucinate details.\n2. If the user asks for a summary, deep dive, or general overview: Provide a concise, engaging summary focusing on what the viewer/reader will learn or experience.\n3. If the user asks a specific question: Find the answer in the content. Be highly specific, info-dense, and provide exact facts or quotes.\n4. If the content DOES NOT contain the answer to a specific question, you MUST reply exactly with: \"The content does not mention this.\" Do not attempt to guess.\n\nUser Input: \"" ++
    userText ++ "\"\n\n--- CONTENT START ---\n" ++ content ++ "\n--- CONTENT END ---\n"

/-- The fixed rate-limit diagnostic of the Q&A branch (line 449). -/
def rateLimitMsg : String :=
  "⚠️ <b>AI Limit Hit</b>\nYou have exceeded your free Gemini API quota. Please check your billing or wait before asking more questions."

/-- The `/start <token>` branch (lines 344-363).  The magic-link token
only takes effect when `userId && userId.length > 10`; otherwise the
branch falls through to `res.sendStatus(200)` with no reads, writes or
sends. -/
def startBranch (env : Env) (st : AppState) (chatId userText : String) : AppState × Nat :=
  let userId := (jsSplit ' ' userText).getD 1 ""
  if !(userId == "") && decide (userId.length > 10) then
    match st.settings.find? (fun r => r.userId == userId) with
    | some us =>
      let st1 := { st with settings := st.settings.map fun (r : SettingsRow) =>
        if r.userId == userId then { r with telegramChatId := some chatId } else r }
      let bt := jsOr env.telegramBotTokenEnv us.telegramBotToken
      let call := mkNotifCall env.http (bt.getD "") chatId "GlimpseAI Connected!"
        "https://your-app.com"
        "Your Telegram account is now successfully linked. You will receive video alerts here."
      ({ st1 with notifs := st1.notifs ++ [call] }, 200)
    | none =>
      match env.insertSettingsError with
      | none =>
        let st1 := { st with settings := st.settings ++
          [({ userId := userId, telegramBotToken := none, telegramChatId := some chatId,
              geminiApiKey := none } : SettingsRow)] }
        let call := mkNotifCall env.http (env.telegramBotTokenEnv.getD "") chatId
          "GlimpseAI Connected!" "https://your-app.com"
          "Your Telegram account is now successfully linked. You will receive video alerts here."
        ({ st1 with notifs := st1.notifs ++ [call] }, 200)
      | some _ =>
        let call := mkNotifCall env.http (env.telegramBotTokenEnv.getD "") chatId
          "Connection Failed" "" "Invalid connection code. Please try again from the app."
        ({ st with notifs := st.notifs ++ [call] }, 200)
  else (st, 200)

/-- The reply-to-item Q&A branch (lines 366-455).  Every path answers
200; LLM failures are classified into the rate-limit diagnostic or a
generic error message. -/
def qaBranch (env : Env) (st : AppState) (chatId userText parentText : String) :
    AppState × Nat :=
  match env.linkMatch parentText with
  | none =>
    ({ st with notifs := st.notifs ++ [mkNotifCall env.http (env.telegramBotTokenEnv.getD "")
        chatId "Debugging" ""
        "Error: No YouTube or Reddit link found in the parent message text."] }, 200)
  | some videoLink =>
    match ((st.settings.filter fun r =>
        r.telegramChatId == some chatId && !(r.geminiApiKey == none)).take 1).head? with
    | none =>
      ({ st with notifs := st.notifs ++ [mkNotifCall env.http (env.telegramBotTokenEnv.getD "")
          chatId "Debugging" "" "Error: Missing Gemini API key in user settings."] }, 200)
    | some us =>
      if !truthy us.geminiApiKey then
        ({ st with notifs := st.notifs ++ [mkNotifCall env.http (env.telegramBotTokenEnv.getD "")
            chatId "Debugging" "" "Error: Missing Gemini API key in user settings."] }, 200)
      else
        match resolveVideo st.videos videoLink with
        | none =>
          ({ st with notifs := st.notifs ++ [mkNotifCall env.http
              (env.telegramBotTokenEnv.getD "") chatId "Debugging" ""
              ("Error: Video not found in database for extracted link: " ++ videoLink)] }, 200)
        | some video =>
          let fetched := env.getTranscript (video.link.getD "")
          let transcript := if video.transcript == "" then fetched else video.transcript
          let st1 := if video.transcript == "" && !(fetched == "") then
              { st with videos := st.videos.map fun v =>
                if v == video then { v with transcript := fetched } else v }
            else st
          if lowerStr (trimS userText) == "total" then
            ({ st1 with notifs := st1.notifs ++ [mkNotifCall env.http
                (env.telegramBotTokenEnv.getD "") chatId (jsOr2S video.title
                (some "Full Post Content")) (video.link.getD "")
                ("Content\n\n" ++ (if truthyS transcript then transcript
                  else "No content available."))] }, 200)
          else
            let isReddit := jsIncludes (video.link.getD "") "reddit.com"
            let content := if truthyS transcript then transcript
              else jsOr2S video.summary (some "No content available.")
            match env.llm (us.geminiApiKey.getD "")
                (qaPrompt isReddit (video.title.getD "") userText content) with
            | .ok text =>
              let answer := if truthyS text then text
                else "I'm sorry, I couldn't process that question."
              let msgType := if isReddit then "Reddit Answer" else "YouTube Answer"
              ({ st1 with notifs := st1.notifs ++ [mkNotifCall env.http
                  (env.telegramBotTokenEnv.getD "") chatId (jsOr2S video.title (some "Answer"))
                  (video.link.getD "") (msgType ++ "\n\n" ++ answer)] }, 200)
            | .error errMsg =>
              let fallback := if jsIncludes errMsg "429" || jsIncludes errMsg "Quota exceeded" ||
                  jsIncludes errMsg "RESOURCE_EXHAUSTED" then rateLimitMsg
                else "An unknown error occurred while generating the response."
              ({ st1 with notifs := st1.notifs ++ [mkNotifCall env.http
                  (env.telegramBotTokenEnv.getD "") chatId
                  (jsOr2S video.title (some "Answer Error")) (video.link.getD "")
                  ("Error\n\n" ++ fallback)] }, 200)

/-- The body of the handler's `try` block (lines 342-458): every path
returns 200, and none of its operations throws in the model, matching
the top-level `catch` that also answers 200. -/
def webhookTryBody (env : Env) (st : AppState) (chatId userText : String)
    (replyText : Option String) : AppState × Nat :=
  if jsStartsWith userText "/start " then startBranch env st chatId userText
  else if truthy replyText then qaBranch env st chatId userText (replyText.getD "")
  else (st, 200)

/-- The full webhook handler.  `message.chat.id.toString()` is
evaluated at line 339, BEFORE the `try` block: when `message.text` is
truthy but `message.chat` is absent this raises a `TypeError` that no
`catch` sees, so no 200 is produced (`.error`). -/
def handleWebhook (env : Env) (st : AppState) (body : Option TgMessage) :
    Except String (AppState × Nat) :=
  match body with
  | none => .ok (st, 200)
  | some m =>
    if !truthy m.text then .ok (st, 200)
    else
      match m.chatId with
      | none => .error "TypeError: Cannot read properties of undefined (reading id)"
      | some cid =>
        .ok (webhookTryBody env st (toString cid) (trimS (m.text.getD "")) m.replyText)

/-! ## Specification-side definitions

These restate, in the spec's own words, properties that are compared
against the code-derived definitions above. -/

/-- Spec wording: `s` contains the literal substring `sub`. -/
def specContains (s sub : String) : Prop :=
  ∃ pre post, s.data = pre ++ sub.data ++ post

/-- Spec wording: `s`, compared case-insensitively, contains the
substring `sub`. -/
def specContainsCI (s sub : String) : Prop :=
  ∃ pre mid post, s.data = pre ++ mid ++ post ∧
    mid.map Char.toLower = sub.data.map Char.toLower

/-- Modelled from the spec: the claimed thumbnail selection — the
thumbnail field itself when it starts with `http`, else the first
preview image URL with `&amp;` unescaped, else the empty string. -/
def redditThumbSpec (thumbnail previewUrl : Option String) : String :=
  let fallback := match previewUrl with
    | some p => unescapeAmp p
    | none => ""
  match thumbnail with
  | some t => if jsStartsWith t "http" then t else fallback
  | none => fallback

/-- Modelled from the spec: the claimed result of `sendNotification` —
missing credentials give a descriptive failure, an HTTP error gives
`{success:false, error: body}`, a thrown fetch gives
`{success:false, error: message}`, success only on an ok response. -/
def sendNotificationSpec (http : String → String → String → Except String HttpResp)
    (botToken chatId title link summary : String) : NotifResult :=
  if botToken = "" ∨ chatId = "" then ⟨false, some "No Telegram settings configured"⟩
  else
    match http botToken chatId (buildMessage title link summary) with
    | .ok res => if res.ok = true then ⟨true, none⟩ else ⟨false, some res.body⟩
    | .error msg => ⟨false, some msg⟩

/-! ## Concrete fixtures for counterexamples and witnesses -/

/-- A baseline oracle environment with inert externals. -/
def envBase : Env :=
  { now := "2026-01-01T00:00:00.000Z"
    telegramBotTokenEnv := none
    http := fun _ _ _ => .ok ⟨true, "ok"⟩
    getTranscript := fun _ => ""
    redditFetch := fun _ => .ok []
    ytScrape := fun _ => .ok []
    rssParse := fun _ => .ok []
    isoOfEpoch := fun _ => "1970-01-01T00:00:00.000Z"
    linkMatch := fun _ => none
    llm := fun _ _ => .ok ""
    insertSettingsError := none }

/-- The empty persistent state. -/
def stEmpty : AppState := ⟨[], [], [], []⟩

/-- A generic-RSS channel owned by `user-1`. -/
def chBlog : Channel :=
  ⟨"chan-1", "user-1", "Blog", "https://blog.example.org/feed", none⟩

/-- Settings for `user-1`: a chat id but no own bot token. -/
def settingsU1 : SettingsRow := ⟨"user-1", none, some "chat-1", none⟩

/-- A feed item whose Atom id uses the `yt:video:<id>` convention. -/
def itemColonId : FeedItem :=
  ⟨"yt:video:abc123", some "A Title", some "https://blog.example.org/p1",
    some "2026-01-01", some "", none⟩

/-- An environment whose Telegram HTTP endpoint rejects every message:
every dispatch returns `{success:false}`. -/
def envHttpFail : Env :=
  { envBase with
    telegramBotTokenEnv := some "bot-token"
    http := fun _ _ _ => .ok ⟨false, "403 Forbidden"⟩ }

/-- An environment whose generic-RSS parse yields one colon-id item. -/
def envOneItem : Env := { envBase with rssParse := fun _ => .ok [itemColonId] }

/-- Starting state holding the one blog channel. -/
def stOneChannel : AppState := ⟨[chBlog], [], [], []⟩

/-- Two poll cycles over the same feed data followed by a backfill of
the same channel. -/
def opsTwice : List Op :=
  [.cycle envOneItem, .cycle envOneItem,
   .backfill envOneItem "chan-1" "https://blog.example.org/feed"]

/-- A scraped YouTube video node. -/
def vidNode : YtVideo := ⟨some "dQw4w9WgXcQ", some "Video", none, none⟩

/-- The same environment at a later wall-clock instant. -/
def envLater : Env := { envBase with now := "2026-03-03T12:00:00.000Z" }

/-! ## Correctness lemmas for the string primitives -/

theorem prefixAt_iff (p : List Char) : ∀ l, prefixAt p l = true ↔ ∃ t, l = p ++ t := by
  induction p with
  | nil => intro l; simp [prefixAt]
  | cons a p ih =>
    intro l
    cases l with
    | nil =>
      simp [prefixAt]
    | cons b t =>
      simp only [prefixAt, Bool.and_eq_true, beq_iff_eq, ih, List.cons_append]
      constructor
      · rintro ⟨rfl, u, rfl⟩
        exact ⟨u, rfl⟩
      · rintro ⟨u, hu⟩
        injection hu with h1 h2
        exact ⟨h1.symm, u, h2⟩

theorem containsSub_iff (n : List Char) :
    ∀ h, containsSub n h = true ↔ ∃ pre post, h = pre ++ (n ++ post) := by
  intro h
  induction h with
  | nil =>
    simp only [containsSub, prefixAt_iff]
    constructor
    · rintro ⟨t, ht⟩
      obtain ⟨h1, h2⟩ := List.append_eq_nil.mp ht.symm
      exact ⟨[], [], by simp [h1]⟩
    · rintro ⟨pre, post, hp⟩
      have h0 := List.append_eq_nil.mp hp.symm
      obtain ⟨h1, h2⟩ := List.append_eq_nil.mp h0.2
      exact ⟨[], by simp [h1]⟩
  | cons c t ih =>
    simp only [containsSub, Bool.or_eq_true, prefixAt_iff, ih]
    constructor
    · rintro (⟨u, hu⟩ | ⟨pre, post, hp⟩)
      · exact ⟨[], u, by simpa using hu⟩
      · exact ⟨c :: pre, post, by simp [hp]⟩
    · rintro ⟨pre, post, hp⟩
      cases pre with
      | nil => exact Or.inl ⟨post, by simpa using hp⟩
      | cons d pre =>
        injection hp with h1 h2
        exact Or.inr ⟨pre, post, h2⟩

theorem map_append_split (f : Char → Char) :
    ∀ (a : List Char) (l b : List Char), l.map f = a ++ b →
      ∃ x y, l = x ++ y ∧ x.map f = a ∧ y.map f = b := by
  intro a
  induction a with
  | nil => intro l b h; exact ⟨[], l, rfl, rfl, by simpa using h⟩
  | cons c a ih =>
    intro l b h
    cases l with
    | nil => simp at h
    | cons d l =>
      simp only [List.map_cons, List.cons_append] at h
      injection h with h1 h2
      obtain ⟨x, y, rfl, hx, hy⟩ := ih l b h2
      exact ⟨d :: x, y, rfl, by simp [h1, hx], hy⟩

theorem contains_map_iff (f : Char → Char) (n l : List Char) :
    containsSub n (l.map f) = true ↔
      ∃ pre mid post, l = pre ++ (mid ++ post) ∧ mid.map f = n := by
  rw [containsSub_iff]
  constructor
  · rintro ⟨pre, post, hp⟩
    obtain ⟨x, yz, rfl, hx, hyz⟩ := map_append_split f pre l (n ++ post) hp
    obtain ⟨mid, z, rfl, hmid, hz⟩ := map_append_split f n yz post hyz
    exact ⟨x, mid, z, rfl, hmid⟩
  · rintro ⟨pre, mid, post, rfl, hmid⟩
    exact ⟨pre.map f, post.map f, by simp [hmid]⟩

/-! ## Claim theorems -/

/-- C4: content-kind classification yields `short` iff the title
contains the literal substring `#shorts` (case-sensitive) or the
snippet, compared case-insensitively, contains `short`; in all other
cases it yields `longform`. -/
theorem classifyVideoType_short_iff (title snippet : String) :
    (classifyVideoType title snippet = "short" ↔
      specContains title "#shorts" ∨ specContainsCI snippet "short") ∧
    (classifyVideoType title snippet = "short" ∨
      classifyVideoType title snippet = "longform") := by
  have hti : jsIncludes title "#shorts" = true ↔ specContains title "#shorts" := by
    rw [jsIncludes, containsSub_iff]
    unfold specContains
    constructor
    · rintro ⟨pre, post, hp⟩; exact ⟨pre, post, by simpa using hp⟩
    · rintro ⟨pre, post, hp⟩; exact ⟨pre, post, by simpa using hp⟩
  have hsn : jsIncludes (lowerStr snippet) "short" = true ↔ specContainsCI snippet "short" := by
    rw [jsIncludes]
    have hdata : (lowerStr snippet).data = snippet.data.map Char.toLower := rfl
    rw [hdata, contains_map_iff]
    unfold specContainsCI
    have hshort : ("short".data.map Char.toLower) = "short".data := by decide
    rw [hshort]
    constructor
    · rintro ⟨pre, mid, post, hp, hm⟩; exact ⟨pre, mid, post, by simpa using hp, hm⟩
    · rintro ⟨pre, mid, post, hp, hm⟩; exact ⟨pre, mid, post, by simpa using hp, hm⟩
  constructor
  · unfold classifyVideoType
    by_cases hc : (jsIncludes title "#shorts" || jsIncludes (lowerStr snippet) "short") = true
    · rw [if_pos hc]
      rcases Bool.or_eq_true _ _ |>.mp hc with h | h
      · exact iff_of_true rfl (Or.inl (hti.mp h))
      · exact iff_of_true rfl (Or.inr (hsn.mp h))
    · rw [if_neg hc]
      constructor
      · intro h; exact absurd h (by decide)
      · intro h
        exact absurd (Bool.or_eq_true _ _ |>.mpr (h.imp hti.mpr hsn.mpr)) hc
  · unfold classifyVideoType
    by_cases hc : (jsIncludes title "#shorts" || jsIncludes (lowerStr snippet) "short") = true
    · rw [if_pos hc]; exact Or.inl rfl
    · rw [if_neg hc]; exact Or.inr rfl

/-- C8: the Reddit backfill thumbnail equals the spec's description —
the thumbnail field itself when it is an `http`-prefixed URL, else the
first preview image URL with `&amp;` unescaped, else the empty string. -/
theorem redditThumb_matches_spec :
    (∀ thumbnail previewUrl, redditThumb thumbnail previewUrl =
        redditThumbSpec thumbnail previewUrl) ∧
    (∀ env chId c, (redditBackfillRow env chId c).thumbnailUrl =
        redditThumb c.thumbnail c.previewUrl) := by
  constructor
  · intro thumbnail previewUrl
    have hfall : (if truthy previewUrl then unescapeAmp (previewUrl.getD "") else "") =
        (match previewUrl with
          | some p => unescapeAmp p
          | none => "") := by
      cases previewUrl with
      | none => rfl
      | some p =>
        by_cases hp : p = ""
        · subst hp; simp [truthy]; rfl
        · simp [truthy, hp]
    cases thumbnail with
    | none =>
      simp only [redditThumb, redditThumbSpec, truthy, Bool.not_false, Bool.true_or, if_true]
      exact hfall
    | some t =>
      by_cases ht : t = ""
      · subst ht
        have hs : jsStartsWith "" "http" = false := by decide
        simp only [redditThumb, redditThumbSpec, truthy, Option.getD, hs]
        simpa using hfall
      · by_cases hst : jsStartsWith t "http" = true
        · simp only [redditThumb, redditThumbSpec, truthy, Option.getD, hst]
          simp [ht]
        · simp only [redditThumb, redditThumbSpec, truthy, Option.getD,
            Bool.not_eq_true] at hst ⊢
          simp [ht, hst]
          exact hfall
  · intro env chId c
    rfl

/-- C6: `sendNotification` never throws (it is a total function) and
its result is exactly the spec's description: missing credentials give
`{success:false}` with the descriptive reason, an HTTP error response
gives `{success:false, error: body}`, a thrown fetch gives
`{success:false, error: message}`, and `{success:true}` happens exactly
when the HTTP response is ok. -/
theorem sendNotification_matches_spec
    (http : String → String → String → Except String HttpResp)
    (botToken chatId title link summary : String) :
    sendNotification http botToken chatId title link summary =
      sendNotificationSpec http botToken chatId title link summary ∧
    ((sendNotification http botToken chatId title link summary).success = true ↔
      botToken ≠ "" ∧ chatId ≠ "" ∧
        ∃ res, http botToken chatId (buildMessage title link summary) = .ok res ∧
          res.ok = true) := by
  by_cases hb : botToken = ""
  · subst hb
    refine ⟨by simp [sendNotification, sendNotificationSpec, truthyS], ?_⟩
    simp [sendNotification, truthyS]
  · by_cases hc : chatId = ""
    · subst hc
      refine ⟨by simp [sendNotification, sendNotificationSpec, truthyS, hb], ?_⟩
      simp [sendNotification, truthyS]
    · have hcond : (truthyS botToken && truthyS chatId) = true := by
        simp [truthyS, hb, hc]
      cases hr : http botToken chatId (buildMessage title link summary) with
      | ok res =>
        cases hok : res.ok
        · refine ⟨?_, ?_⟩
          · simp [sendNotification, sendNotificationSpec, hcond, hr, hok, hb, hc]
          · simp [sendNotification, hcond, hr, hok, hb, hc]
        · refine ⟨?_, ?_⟩
          · simp [sendNotification, sendNotificationSpec, hcond, hr, hok, hb, hc]
          · simp only [sendNotification, hcond, if_true, hr, hok, if_true]
            constructor
            · intro _; exact ⟨hb, hc, res, rfl, hok⟩
            · intro _; trivial
      | error msg =>
        refine ⟨?_, ?_⟩
        · simp [sendNotification, sendNotificationSpec, hcond, hr, hb, hc]
        · simp [sendNotification, hcond, hr]

/-! ## Dedup-key uniqueness lemmas -/

theorem existsVideo_append (vs ws : List VideoRow) (c v : String) :
    existsVideo (vs ++ ws) c v = (existsVideo vs c v || existsVideo ws c v) := by
  simp [existsVideo, List.any_append]

theorem keyMatch_flip (a r : VideoRow) :
    keyMatch r.channelId r.videoId a = keyMatch a.channelId a.videoId r := by
  rw [Bool.eq_iff_iff]
  simp only [keyMatch, Bool.and_eq_true, beq_iff_eq]
  constructor
  · rintro ⟨x, y⟩; exact ⟨x.symm, y.symm⟩
  · rintro ⟨x, y⟩; exact ⟨x.symm, y.symm⟩

theorem uniqKeysB_append_single (r : VideoRow) :
    ∀ vs, uniqKeysB vs = true → existsVideo vs r.channelId r.videoId = false →
      uniqKeysB (vs ++ [r]) = true := by
  intro vs
  induction vs with
  | nil => intro _ _; simp [uniqKeysB, existsVideo]
  | cons a t ih =>
    intro h1 h2
    simp only [uniqKeysB, Bool.and_eq_true, Bool.not_eq_true'] at h1
    simp only [existsVideo, List.any_cons, Bool.or_eq_false_iff] at h2
    simp only [List.cons_append, uniqKeysB, Bool.and_eq_true, Bool.not_eq_true']
    constructor
    · have hr : keyMatch a.channelId a.videoId r = false := by
        rw [← keyMatch_flip]
        exact h2.1
      have h1' : List.any t (keyMatch a.channelId a.videoId) = false := h1.1
      simp only [existsVideo, List.append_eq, List.any_append, List.any_cons, List.any_nil,
        h1', hr, Bool.or_false, Bool.false_or, Bool.or_self]
    · exact ih h1.2 h2.2

theorem processItem_videos (env : Env) (settings : List SettingsRow) (ch : Channel)
    (st : AppState) (item : FeedItem) :
    (processItem env settings ch st item).videos =
      if existsVideo st.videos ch.id item.id then st.videos
      else st.videos ++ [cycleRow env settings ch item] := by
  unfold processItem
  by_cases h : existsVideo st.videos ch.id item.id = true
  · simp [h]
  · simp only [Bool.not_eq_true] at h
    simp only [h, Bool.false_eq_true, if_false]
    by_cases ha : cycleAttempt env settings ch = true <;> simp [ha]

theorem processItem_uniq (env : Env) (settings : List SettingsRow) (ch : Channel)
    (st : AppState) (item : FeedItem) (h : uniqKeysB st.videos = true) :
    uniqKeysB (processItem env settings ch st item).videos = true := by
  rw [processItem_videos]
  by_cases he : existsVideo st.videos ch.id item.id = true
  · simpa [he] using h
  · simp only [Bool.not_eq_true] at he
    simp only [he, Bool.false_eq_true, if_false]
    exact uniqKeysB_append_single (cycleRow env settings ch item) st.videos h he

theorem foldl_processItem_uniq (env : Env) (settings : List SettingsRow) (ch : Channel) :
    ∀ (items : List FeedItem) (st : AppState), uniqKeysB st.videos = true →
      uniqKeysB ((items.foldl (fun s it => processItem env settings ch s it) st).videos) =
        true := by
  intro items
  induction items with
  | nil => intro st h; simpa using h
  | cons it t ih =>
    intro st h
    simp only [List.foldl_cons]
    exact ih _ (processItem_uniq env settings ch st it h)

theorem processChannel_uniq (env : Env) (settings : List SettingsRow) (st : AppState)
    (ch : Channel) (st' : AppState) (h : uniqKeysB st.videos = true)
    (hp : processChannel env settings st ch = .ok st') :
    uniqKeysB st'.videos = true := by
  unfold processChannel at hp
  cases hf : fetchFeedItems env ch with
  | error e => rw [hf] at hp; cases hp
  | ok items =>
    rw [hf] at hp
    injection hp with hp
    subst hp
    exact foldl_processItem_uniq env settings ch items _ h

theorem checkFeedsOver_cons (env : Env) (settings : List SettingsRow) (st : AppState)
    (ch : Channel) (t : List Channel) :
    checkFeedsOver env settings st (ch :: t) =
      checkFeedsOver env settings
        (match processChannel env settings st ch with
          | .ok s' => s'
          | .error _ => st) t := rfl

theorem checkFeedsOver_uniq (env : Env) (settings : List SettingsRow) :
    ∀ (chs : List Channel) (st : AppState), uniqKeysB st.videos = true →
      uniqKeysB ((checkFeedsOver env settings st chs).videos) = true := by
  intro chs
  induction chs with
  | nil => intro st h; simpa [checkFeedsOver] using h
  | cons ch t ih =>
    intro st h
    rw [checkFeedsOver_cons]
    cases hp : processChannel env settings st ch with
    | ok s' => exact ih s' (processChannel_uniq env settings st ch s' h hp)
    | error e => exact ih st h

theorem upsertIgnore_uniq :
    ∀ (rows videos : List VideoRow), uniqKeysB videos = true →
      uniqKeysB (upsertIgnore videos rows) = true := by
  intro rows
  induction rows with
  | nil => intro videos h; simpa [upsertIgnore] using h
  | cons r t ih =>
    intro videos h
    simp only [upsertIgnore, List.foldl_cons]
    by_cases he : existsVideo videos r.channelId r.videoId = true
    · simp only [he, if_true]
      exact ih videos h
    · simp only [Bool.not_eq_true] at he
      simp only [he, Bool.false_eq_true, if_false]
      exact ih _ (uniqKeysB_append_single r videos h he)

theorem backfillVideos_uniq (env : Env) (st : AppState) (chId rssUrl : String)
    (h : uniqKeysB st.videos = true) :
    uniqKeysB (backfillVideos env st chId rssUrl).videos = true := by
  unfold backfillVideos
  cases hb : backfillRows env chId rssUrl with
  | error e => simpa using h
  | ok rows =>
    by_cases hl : rows.length > 0
    · simp only [hl, if_true]
      exact upsertIgnore_uniq rows st.videos h
    · simp only [hl, if_false]
      exact h

theorem applyOp_uniq (st : AppState) (op : Op) (h : uniqKeysB st.videos = true) :
    uniqKeysB (applyOp st op).videos = true := by
  cases op with
  | cycle env => exact checkFeedsOver_uniq env st.settings st.channels st h
  | backfill env chId rssUrl => exact backfillVideos_uniq env st chId rssUrl h

/-- C1: across any sequence of poll-cycle and backfill runs, the
(channel, sourceId) dedup keys of the `videos` table stay pairwise
distinct — a cycle inserts only after a negative existence probe and
backfill upserts with conflict-ignore, so each item is created at most
once no matter how often the cycle runs. -/
theorem runOps_preserves_uniq_keys :
    ∀ (ops : List Op) (st : AppState), uniqKeysB st.videos = true →
      uniqKeysB ((runOps ops st).videos) = true := by
  intro ops
  induction ops with
  | nil => intro st h; simpa [runOps] using h
  | cons op t ih =>
    intro st h
    simp only [runOps, List.foldl_cons]
    exact ih _ (applyOp_uniq st op h)

/-- C1 witness: starting from an empty store, two identical poll cycles
over fixed feed data followed by a backfill of the same channel leave
the dedup keys pairwise distinct. -/
theorem runOps_preserves_uniq_keys_witness :
    uniqKeysB stOneChannel.videos = true ∧
      uniqKeysB ((runOps opsTwice stOneChannel).videos) = true :=
  ⟨by decide, runOps_preserves_uniq_keys opsTwice stOneChannel (by decide)⟩

/-! ## Per-channel failure isolation -/

theorem processChannel_of_error (env : Env) (settings : List SettingsRow) (st : AppState)
    (ch : Channel) (e : String) (hf : fetchFeedItems env ch = .error e) :
    processChannel env settings st ch = .error e := by
  unfold processChannel
  rw [hf]

theorem checkFeedsOver_filter (env : Env) (settings : List SettingsRow) :
    ∀ (chs : List Channel) (st : AppState),
      checkFeedsOver env settings st chs =
        checkFeedsOver env settings st
          (chs.filter fun ch => (fetchFeedItems env ch).isOk) := by
  intro chs
  induction chs with
  | nil => intro st; rfl
  | cons ch t ih =>
    intro st
    cases hf : fetchFeedItems env ch with
    | ok items =>
      have hok : (fetchFeedItems env ch).isOk = true := by rw [hf]; rfl
      rw [List.filter_cons, if_pos hok]
      rw [checkFeedsOver_cons, checkFeedsOver_cons]
      exact ih _
    | error e =>
      have hne : ¬((fetchFeedItems env ch).isOk = true) := by
        rw [hf]; simp [Except.isOk, Except.toBool]
      rw [List.filter_cons, if_neg hne]
      rw [checkFeedsOver_cons, processChannel_of_error env settings st ch e hf]
      exact ih st

/-- C5: a fetch/parse error for one channel is caught by the
per-channel handler and the cycle continues: the whole run returns
normally (it is a total function) and equals the run over just the
channels whose fetch succeeded — every other channel is processed
exactly as if the failing ones were absent. -/
theorem checkFeeds_isolates_channel_failures (env : Env) (st : AppState) :
    checkFeeds env st =
      checkFeedsOver env st.settings st
        (st.channels.filter fun ch => (fetchFeedItems env ch).isOk) := by
  unfold checkFeeds
  exact checkFeedsOver_filter env st.settings st.channels st

/-! ## Notified-flag semantics -/

/-- C2 counterexample: with a bot token and chat id configured but a
Telegram endpoint that rejects the message (`{success:false}`), the
poll cycle still inserts the new item with `notified = true` — the
dispatch result is never inspected (`scheduler.ts` lines 133-137). -/
theorem cycle_notified_true_despite_failed_dispatch :
    ((processItem envHttpFail [settingsU1] chBlog stEmpty itemColonId).videos.map
      VideoRow.notified = [true]) ∧
    ((processItem envHttpFail [settingsU1] chBlog stEmpty itemColonId).notifs.map
      (fun n => n.result.success) = [false]) := by
  decide

/-- C2 amended: backfilled items always get `notified=true`; an item
inserted by the poll cycle gets `notified = cycleAttempt` — true iff a
bot token and chat id are configured (a dispatch was attempted) —
regardless of the dispatch result; and the summary endpoint flips
`notified` to true whenever its attempt condition holds, again
regardless of the dispatch result. -/
theorem notified_semantics :
    (∀ env chId c, (redditBackfillRow env chId c).notified = true) ∧
    (∀ env chId v, (ytBackfillRow env chId v).notified = true) ∧
    (∀ env chId item, (rssBackfillRow env chId item).notified = true) ∧
    (∀ env settings ch item,
      (cycleRow env settings ch item).notified = cycleAttempt env settings ch) ∧
    (∀ env settings ch st item,
      (processItem env settings ch st item).videos = st.videos ∨
      (processItem env settings ch st item).videos =
        st.videos ++ [cycleRow env settings ch item]) ∧
    (∀ env settings ownerId v summary,
      ((saveSummary env settings ownerId v summary).1).notified =
        (v.notified || summaryFlipAttempt env settings ownerId v)) := by
  refine ⟨fun _ _ _ => rfl, fun _ _ _ => rfl, fun _ _ _ => rfl, fun _ _ _ _ => rfl, ?_, ?_⟩
  · intro env settings ch st item
    rw [processItem_videos]
    by_cases he : existsVideo st.videos ch.id item.id = true
    · left; simp [he]
    · right
      simp only [Bool.not_eq_true] at he
      simp [he]
  · intro env settings ownerId v summary
    unfold saveSummary summaryFlipAttempt
    cases hfind : settings.find? (fun r => r.userId == ownerId) with
    | none => simp
    | some us =>
      cases hc : truthy us.telegramChatId <;>
        cases hn : v.notified <;>
          cases hb : truthy (jsOr env.telegramBotTokenEnv us.telegramBotToken) <;>
            simp [hc, hn, hb]

/-! ## Source-id normalization -/

/-- C3 counterexample: for the Atom id `yt:video:abc123`, backfill
stores the normalized suffix `abc123` while the steady-state poll cycle
stores the raw id unchanged — the normalization is NOT applied in both
places. -/
theorem cycle_does_not_normalize_source_id :
    splitColonLast "yt:video:abc123" = "abc123" ∧
    ((processItem envBase [] chBlog stEmpty itemColonId).videos.map VideoRow.videoId =
      ["yt:video:abc123"]) ∧
    (rssBackfillRow envBase "chan-1" itemColonId).videoId = "abc123" ∧
    ("yt:video:abc123" : String) ≠ "abc123" := by
  decide

/-- C3 amended: the suffix-after-last-`:` normalization is applied to
generic RSS item ids only during backfill; the steady-state poll cycle
uses the feed item's id unchanged as its dedup key. -/
theorem source_id_normalization_backfill_only :
    (∀ env chId item, (rssBackfillRow env chId item).videoId = splitColonLast item.id) ∧
    (∀ env settings ch item, (cycleRow env settings ch item).videoId = item.id) ∧
    (∀ env settings ch st item,
      (processItem env settings ch st item).videos = st.videos ∨
      (processItem env settings ch st item).videos =
        st.videos ++ [cycleRow env settings ch item]) := by
  refine ⟨fun _ _ _ => rfl, fun _ _ _ _ => rfl, ?_⟩
  intro env settings ch st item
  rw [processItem_videos]
  by_cases he : existsVideo st.videos ch.id item.id = true
  · left; simp [he]
  · right
    simp only [Bool.not_eq_true] at he
    simp [he]

/-! ## YouTube scrape publication timestamps -/

/-- C9: every item ingested through the YouTube page-scrape path — in
the poll cycle and in backfill — stores `published_at` equal to the
wall-clock time at the moment of ingestion, so two runs at different
times record different values for the same video. -/
theorem youtube_publishedAt_is_ingestion_time :
    (∀ env settings ch v,
      (cycleRow env settings ch (ytScrapeToFeedItem env.now v)).publishedAt =
        some env.now) ∧
    (∀ env chId v, (ytBackfillRow env chId v).publishedAt = some env.now) ∧
    (∀ (now1 now2 : String) (v : YtVideo), now1 ≠ now2 →
      (ytScrapeToFeedItem now1 v).isoDate ≠ (ytScrapeToFeedItem now2 v).isoDate) := by
  refine ⟨fun _ _ _ _ => rfl, fun _ _ _ => rfl, ?_⟩
  intro n1 n2 v hne heq
  exact hne (by simpa [ytScrapeToFeedItem] using heq)

/-- C9 witness: the same scraped video node ingested at two different
instants gets two different stored publication timestamps. -/
theorem youtube_publishedAt_witness :
    envBase.now ≠ envLater.now ∧
    (ytScrapeToFeedItem envBase.now vidNode).isoDate ≠
      (ytScrapeToFeedItem envLater.now vidNode).isoDate :=
  ⟨by decide, youtube_publishedAt_is_ingestion_time.2.2 envBase.now envLater.now vidNode
    (by decide)⟩

/-! ## Webhook handler -/

/-- C7: a webhook payload with a truthy `message.text` but no
`message.chat` makes the handler throw (`message.chat.id.toString()`
runs before the `try` block), so no HTTP 200 is produced — contradicting
the code's own `// Always return 200 to Telegram` intent. -/
theorem webhook_missing_chat_throws (env : Env) (st : AppState) :
    handleWebhook env st (some ⟨some "hi", none, none⟩) =
      .error "TypeError: Cannot read properties of undefined (reading id)" := by
  rfl

/-- C10: a `/start` command whose token (the text after the first
space) is missing or has length ≤ 10 is a complete no-op: the handler
performs no settings read or write and no notification send — the whole
persistent state, including the notification trace, is unchanged — and
still answers HTTP 200. -/
theorem start_short_token_noop (env : Env) (st : AppState) (cid : Int) (t : String)
    (reply : Option String)
    (hs : jsStartsWith (trimS t) "/start " = true)
    (htok : (jsSplit ' ' (trimS t)).getD 1 "" = "" ∨
      ((jsSplit ' ' (trimS t)).getD 1 "").length ≤ 10) :
    handleWebhook env st (some ⟨some t, some cid, reply⟩) = .ok (st, 200) := by
  have ht : ¬(t = "") := by
    intro h
    subst h
    exact absurd hs (by decide)
  have htr : truthy (some t) = true := by simp [truthy, ht]
  have hcond : (!(((jsSplit ' ' (trimS t)).getD 1 "") == "") &&
      decide (((jsSplit ' ' (trimS t)).getD 1 "").length > 10)) = false := by
    rcases htok with h | h
    · rw [h]; decide
    · have hn : ¬(((jsSplit ' ' (trimS t)).getD 1 "").length > 10) := by omega
      rw [decide_eq_false hn, Bool.and_false]
  unfold handleWebhook
  simp only [htr, Bool.not_true, Bool.false_eq_true, if_false, Option.getD_some]
  unfold webhookTryBody
  rw [if_pos hs]
  unfold startBranch
  simp only [hcond, Bool.false_eq_true, if_false]

/-- C10 witness: `/start abc` (token of length 3) leaves the state
untouched and answers 200. -/
theorem start_short_token_noop_witness :
    jsStartsWith (trimS "/start abc") "/start " = true ∧
    ((jsSplit ' ' (trimS "/start abc")).getD 1 "" = "" ∨
      ((jsSplit ' ' (trimS "/start abc")).getD 1 "").length ≤ 10) ∧
    handleWebhook envBase stOneChannel (some ⟨some "/start abc", some 7, none⟩) =
      .ok (stOneChannel, 200) :=
  ⟨by decide, by decide,
    start_short_token_noop envBase stOneChannel 7 "/start abc" none (by decide) (by decide)⟩
